import Mathlib

/-!
# Homeserver discovery and login negotiation of `LoginPage` (src/LoginPage.cpp)

A shallow embedding of the member functions and network callbacks of
`LoginPage`.  The page object, the transport client singleton
(`http::client()`), the Qt signals it emits and the slot invocations posted
through `Qt::QueuedConnection` are gathered in one explicit `State`; every
member function and every callback lambda is a function `State → State`.

Callbacks capture only `this` (the SSO token handler also captures the device
name), so delivering a network response is the application of the
corresponding callback function to the state at the time of delivery.
-/

namespace LoginPage

/-! ## Data carried by requests and responses -/

/-- The part of `mtx::identifiers::User` read by the page. -/
structure User where
  localpart : String
  hostname : String
  deriving DecidableEq, Repr

/-- The enum `LoginPage::LoginMethod`. -/
inductive LoginMethod
  | Password
  | SSO
  deriving DecidableEq, Repr

/-- The fields of `mtx::http::ClientError` read by the callbacks;
`matrix_error` stands for `err->matrix_error.error`. -/
structure ClientError where
  status_code : Nat
  parse_error : String
  matrix_error : String
  deriving DecidableEq, Repr

/-- The response `mtx::responses::WellKnown`; `base_url` stands for
`res.homeserver.base_url`. -/
structure WellKnown where
  base_url : String
  deriving DecidableEq, Repr

/-- The response `mtx::responses::LoginFlows`: the `type` of every advertised flow. -/
structure LoginFlows where
  flows : List String
  deriving DecidableEq, Repr

/-- The response `mtx::responses::Login`; `well_known` stands for the optional
`res.well_known->homeserver.base_url`. -/
structure Login where
  user_id : String
  well_known : Option String
  deriving DecidableEq, Repr

/-- The constant `mtx::user_interactive::auth_types::sso`. -/
def auth_types_sso : String := "m.login.sso"

/-- The constant `mtx::user_interactive::auth_types::password`. -/
def auth_types_password : String := "m.login.password"

/-! ## Observable effects -/

/-- Qt signals of the page that are not connected to a queued slot. -/
inductive Signal
  | matrixIdChanged
  | homeserverChanged
  | mxidErrorChanged
  | errorOccurred
  | lookingUpHsChanged
  | versionLookedUp
  | loggingInChanged
  deriving DecidableEq, Repr

/-- Slot invocations posted by `versionOkCb`, `versionErrorCb` and `loginOk`,
all three connected with `Qt::QueuedConnection` in the constructor. -/
inductive Slot
  | versionOk (passwordSupported ssoSupported : Bool)
  | versionError (error : String)
  | loginOk (res : Login)
  deriving DecidableEq, Repr

/-- Calls that leave the page: methods of `http::client()`, the SSO handler,
`QDesktopServices::openUrl` and `MainWindow::showChatPage`. -/
inductive Call
  | set_server (url : String)
  | verify_certificates (enabled : Bool)
  | well_known
  | versions
  | get_login
  | login (user password device : String)
  | login_token (token device : String)
  | login_sso_redirect
  | set_user (id : String)
  | ssoNew
  | ssoDeleteLater
  | openUrl
  | showChatPage
  deriving DecidableEq, Repr

/-! ## State -/

/-- The members of `LoginPage`, the server URL held by `http::client()`, and
the effects produced so far, oldest first. -/
structure State where
  inferredServerAddress_ : String
  mxid_ : String
  homeserver_ : String
  mxidError_ : String
  error_ : String
  passwordSupported_ : Bool
  ssoSupported_ : Bool
  lookingUpHs_ : Bool
  loggingIn_ : Bool
  homeserverNeeded_ : Bool
  homeserverValid_ : Bool
  /-- argument of the latest `http::client()->set_server` -/
  server : String
  /-- signals emitted so far -/
  signals : List Signal
  /-- queued slot invocations not yet run -/
  queue : List Slot
  /-- outgoing calls made so far -/
  calls : List Call
  deriving DecidableEq, Repr

/-- What the page takes from outside this file. `parse` is
`mtx::identifiers::parse<User>` (`none` when it throws),
`disableCertificateValidation` is the user setting of that name,
`initialDeviceName` is the value of `initialDeviceName_()`, and
`clearErrorsSignals` are the signals emitted by `clearErrors`. -/
structure Env where
  parse : String → Option User
  disableCertificateValidation : Bool
  initialDeviceName : String
  clearErrorsSignals : List Signal

/-- The statement `emit sig()` for a directly observed signal. -/
def emit (sig : Signal) (s : State) : State :=
  { s with signals := s.signals ++ [sig] }

/-- Emission of a signal connected through `Qt::QueuedConnection`. -/
def post (slot : Slot) (s : State) : State :=
  { s with queue := s.queue ++ [slot] }

/-- An outgoing call. -/
def call (c : Call) (s : State) : State :=
  { s with calls := s.calls ++ [c] }

/-- The call `http::client()->set_server(url)`. -/
def set_server (url : String) (s : State) : State :=
  call (.set_server url) { s with server := url }

/-- The function `tr`: the source text, as shown when no translation is loaded. -/
def tr (text : String) : String := text

/-- The message set on `mxidError_` at every failed identifier parse. -/
def invalidMxid : String :=
  tr "You have entered an invalid Matrix ID  e.g @joe:matrix.org"

/-- Modelled from the spec: `clearErrors` is declared in LoginPage.h, which is
not among the sources. Following §4.5 (errors are cleared explicitly) it
empties `error_` and `mxidError_`; the signals it emits are those of the
environment. -/
def clearErrors (env : Env) (s : State) : State :=
  { s with error_ := "", mxidError_ := "", signals := s.signals ++ env.clearErrorsSignals }

/-- The test `QChar::isSpace`: the ASCII blanks from tab to carriage return and the space, the
next-line and no-break space characters, and the Unicode separators. -/
def qIsSpace (c : Char) : Bool :=
  let n := c.toNat
  n == 0x20 || (0x09 ≤ n && n ≤ 0x0d) || n == 0x85 || n == 0xa0 || n == 0x1680 ||
    (0x2000 ≤ n && n ≤ 0x200a) || n == 0x2028 || n == 0x2029 || n == 0x202f ||
    n == 0x205f || n == 0x3000

/-- The test `QString::trimmed().isEmpty()` on a device name: every character
is a blank. -/
def trimmedIsEmpty (text : String) : Bool :=
  text.data.all qIsSpace

/-- The expression
`deviceName.trimmed().isEmpty() ? initialDeviceName_() : deviceName.toStdString()`. -/
def deviceOrDefault (env : Env) (deviceName : String) : String :=
  if trimmedIsEmpty deviceName then env.initialDeviceName else deviceName

/-! ## Member functions and slots -/

/-- The slot `LoginPage::showError`. -/
def showError (msg : String) (s : State) : State :=
  let s := { s with loggingIn_ := false }
  let s := emit .loggingInChanged s
  let s := { s with error_ := msg }
  emit .errorOccurred s

/-- The slot `LoginPage::versionError`. -/
def versionError (error : String) (s : State) : State :=
  let s := showError error s
  let s := { s with homeserverNeeded_ := true, lookingUpHs_ := false, homeserverValid_ := false }
  let s := emit .lookingUpHsChanged s
  emit .versionLookedUp s

/-- The slot `LoginPage::versionOk`. -/
def versionOk (passwordSupported ssoSupported : Bool) (s : State) : State :=
  let s := { s with passwordSupported_ := passwordSupported, ssoSupported_ := ssoSupported }
  let s := { s with lookingUpHs_ := false, homeserverValid_ := true }
  let s := emit .homeserverChanged s
  let s := emit .lookingUpHsChanged s
  emit .versionLookedUp s

/-- The lambda connected to `loginOk` in the constructor. -/
def loginOkSlot (res : Login) (s : State) : State :=
  let s := { s with loggingIn_ := false }
  let s := emit .loggingInChanged s
  let s := call (.set_user res.user_id) s
  call .showChatPage s

/-- Running one queued slot invocation. -/
def runSlot (slot : Slot) (s : State) : State :=
  match slot with
  | .versionOk p o => versionOk p o s
  | .versionError e => versionError e s
  | .loginOk res => loginOkSlot res s

/-- The event loop running every queued slot invocation, oldest first. None of
the three slots posts a further invocation. -/
def drain (s : State) : State :=
  s.queue.foldl (fun st slot => runSlot slot st) { s with queue := [] }

/-- The body of the loop over `flows.flows` in the `get_login` callback, on the
pair `(ssoSupported, passwordSupported)`. -/
def scanStep (acc : Bool × Bool) (type : String) : Bool × Bool :=
  if type = auth_types_sso then (true, acc.2)
  else if type = auth_types_password then (acc.1, true)
  else acc

/-- The loop over `flows.flows`, started from `(false, false)`. -/
def scanFlows (flows : List String) : Bool × Bool :=
  flows.foldl scanStep (false, false)

/-- The callback passed to `http::client()->get_login`. -/
def getLoginCallback (flows : LoginFlows) (err : Option ClientError) (s : State) : State :=
  let s := if err.isSome || flows.flows.isEmpty then post (.versionOk true false) s else s
  let r := scanFlows flows.flows
  post (.versionOk r.2 r.1) s

/-- The callback passed to `http::client()->versions`. -/
def versionsCallback (err : Option ClientError) (s : State) : State :=
  match err with
  | some e =>
    if e.status_code = 404 then
      post (.versionError
        (tr "The required endpoints were not found. Possibly not a Matrix server.")) s
    else if e.parse_error ≠ "" then
      post (.versionError
        (tr "Received malformed response. Make sure the homeserver domain is valid.")) s
    else
      post (.versionError
        (tr "An unknown error occured. Make sure the homeserver domain is valid.")) s
  | none => call .get_login s

/-- The function `LoginPage::checkHomeserverVersion`, up to the `versions` request. -/
def checkHomeserverVersion (env : Env) (s : State) : State :=
  let s := clearErrors env s
  match env.parse s.mxid_ with
  | none => emit .mxidErrorChanged { s with mxidError_ := invalidMxid }
  | some _ => call .versions s

/-- The function `LoginPage::setHomeserver`. -/
def setHomeserver (env : Env) (hs : String) (s : State) : State :=
  if hs ≠ s.homeserver_ then
    let s := { s with homeserver_ := hs, homeserverValid_ := false }
    let s := emit .homeserverChanged s
    let s := set_server hs s
    checkHomeserverVersion env s
  else s

/-- The callback passed to `http::client()->well_known`. -/
def wellKnownCallback (env : Env) (res : WellKnown) (err : Option ClientError)
    (s : State) : State :=
  match err with
  | some e =>
    if e.status_code = 404 then checkHomeserverVersion env s
    else if e.parse_error ≠ "" then
      post (.versionError (tr "Autodiscovery failed. Received malformed response.")) s
    else
      post (.versionError
        (tr "Autodiscovery failed. Unknown error when requesting .well-known.")) s
  | none =>
    let s := set_server res.base_url s
    let s := emit .homeserverChanged s
    checkHomeserverVersion env s

/-- The function `LoginPage::onMatrixIdEntered`, up to the `well_known` request. -/
def onMatrixIdEntered (env : Env) (s : State) : State :=
  let s := clearErrors env s
  let s := { s with homeserverValid_ := false }
  let s := emit .homeserverChanged s
  match env.parse s.mxid_ with
  | none => emit .mxidErrorChanged { s with mxidError_ := invalidMxid }
  | some user =>
    if user.hostname = "" ∨ user.localpart = "" then
      emit .mxidErrorChanged { s with mxidError_ := invalidMxid }
    else if user.hostname ≠ s.inferredServerAddress_ then
      let s := { s with homeserverNeeded_ := false, lookingUpHs_ := true }
      let s := emit .lookingUpHsChanged s
      let s := set_server user.hostname s
      let s := call (.verify_certificates (!env.disableCertificateValidation)) s
      let s := { s with homeserver_ := user.hostname }
      let s := emit .homeserverChanged s
      call .well_known s
    else s

/-- Modelled from the spec: the setter `setMxid` is declared in LoginPage.h,
which is not among the sources. Following §6 (an input surface that supplies
raw identifier text and triggers re-parsing) a changed text is stored in
`mxid_` and `onMatrixIdEntered` runs. -/
def setMxid (env : Env) (id : String) (s : State) : State :=
  if id ≠ s.mxid_ then
    onMatrixIdEntered env (emit .matrixIdChanged { s with mxid_ := id })
  else s

/-- The callback passed to `http::client()->login` in the password branch. -/
def passwordLoginCallback (res : Login) (err : Option ClientError) (s : State) : State :=
  match err with
  | some e =>
    let error := if e.matrix_error = "" then e.parse_error else e.matrix_error
    showError error s
  | none =>
    let s := match res.well_known with
      | some url => set_server url s
      | none => s
    post (.loginOk res) s

/-- The callback passed to `http::client()->login` in the `ssoSuccess` handler. -/
def tokenLoginCallback (res : Login) (err : Option ClientError) (s : State) : State :=
  match err with
  | some e =>
    let s := showError e.matrix_error s
    emit .errorOccurred s
  | none =>
    let s := match res.well_known with
      | some url => set_server url s
      | none => s
    post (.loginOk res) s

/-- The lambda connected to `SSOHandler::ssoSuccess`; `deviceName` is the
captured argument of `onLoginButtonClicked`. -/
def ssoSuccess (env : Env) (deviceName token : String) (s : State) : State :=
  let s := call (.login_token token (deviceOrDefault env deviceName)) s
  call .ssoDeleteLater s

/-- The lambda connected to `SSOHandler::ssoFailed`. -/
def ssoFailed (s : State) : State :=
  let s := showError (tr "SSO login failed") s
  let s := emit .errorOccurred s
  call .ssoDeleteLater s

/-- The slot `LoginPage::onLoginButtonClicked`. -/
def onLoginButtonClicked (env : Env) (loginMethod : LoginMethod)
    (userid password deviceName : String) (s : State) : State :=
  let s := clearErrors env s
  match env.parse userid with
  | none => emit .mxidErrorChanged { s with mxidError_ := invalidMxid }
  | some user =>
    match loginMethod with
    | .Password =>
      if password = "" then showError (tr "Empty password") s
      else
        let s := call (.login user.localpart password (deviceOrDefault env deviceName)) s
        let s := { s with loggingIn_ := true }
        emit .loggingInChanged s
    | .SSO =>
      let s := call .ssoNew s
      let s := call .login_sso_redirect s
      let s := call .openUrl s
      let s := { s with loggingIn_ := true }
      emit .loggingInChanged s

/-! ## A sample environment and a sample page -/

/-- Modelled from the spec: `mtx::identifiers::parse<User>` is library code
outside the sources. Following §4.1 the text has the shape `@localpart:domain`,
split at the first `:` after the leading `@`, with both parts non-empty. -/
def parseUser (raw : String) : Option User :=
  match raw.data with
  | '@' :: rest =>
    let l := rest.takeWhile (fun c => c != ':')
    match rest.dropWhile (fun c => c != ':') with
    | _ :: h => if l = [] ∨ h = [] then none else some ⟨String.mk l, String.mk h⟩
    | [] => none
  | _ => none

/-- A sample environment: the parser of §4.1, certificate validation enabled,
and a `clearErrors` that notifies both error properties. -/
def sampleEnv : Env :=
  ⟨parseUser, false, "nheko", [.errorOccurred, .mxidErrorChanged]⟩

/-- A page at rest: empty texts, nothing looked up, nothing queued, no effects. -/
def idle : State :=
  ⟨"", "", "", "", "", true, false, false, false, false, false, "", [], [], []⟩

/-- How often `errorOccurred` occurs in a list of signals. -/
def errorCount (sigs : List Signal) : Nat :=
  sigs.count Signal.errorOccurred

/-- A change of input by the caller that supersedes the attempt in flight. -/
inductive Input
  | mxid (id : String)
  | homeserver (hs : String)
  deriving DecidableEq, Repr

/-- The caller changing the identifier or the homeserver input. -/
def supersede (env : Env) (input : Input) (s : State) : State :=
  match input with
  | .mxid id => setMxid env id s
  | .homeserver hs => setHomeserver env hs s

/-! ## Helper lemmas -/

theorem drain_post (slot : Slot) (s : State) :
    drain (post slot s) = runSlot slot (drain s) := by
  simp [drain, post, List.foldl_append]

theorem sso_ne_password : auth_types_sso ≠ auth_types_password := by decide

theorem scan_foldl (flows : List String) (acc : Bool × Bool) :
    ((flows.foldl scanStep acc).1 = true ↔ acc.1 = true ∨ auth_types_sso ∈ flows) ∧
    ((flows.foldl scanStep acc).2 = true ↔ acc.2 = true ∨ auth_types_password ∈ flows) := by
  induction flows generalizing acc with
  | nil => simp
  | cons t rest ih =>
    simp only [List.foldl_cons, List.mem_cons]
    have h := ih (scanStep acc t)
    rw [h.1, h.2]
    have e1 : auth_types_sso ≠ auth_types_password := sso_ne_password
    have e2 : auth_types_password ≠ auth_types_sso := fun h => e1 h.symm
    by_cases h1 : t = auth_types_sso
    · subst h1
      simp [scanStep, e2]
    · by_cases h2 : t = auth_types_password
      · subst h2
        simp [scanStep, e1, e2]
      · have h3 : auth_types_sso ≠ t := fun h => h1 h.symm
        have h4 : auth_types_password ≠ t := fun h => h2 h.symm
        simp [scanStep, h1, h2, h3, h4]

theorem scanFlows_sso (flows : List String) :
    (scanFlows flows).1 = true ↔ auth_types_sso ∈ flows := by
  have h := (scan_foldl flows (false, false)).1
  simpa [scanFlows] using h

theorem scanFlows_password (flows : List String) :
    (scanFlows flows).2 = true ↔ auth_types_password ∈ flows := by
  have h := (scan_foldl flows (false, false)).2
  simpa [scanFlows] using h

theorem scanFlows_filter (flows : List String) :
    scanFlows (flows.filter (fun t => t = auth_types_sso ∨ t = auth_types_password)) =
      scanFlows flows := by
  apply Prod.ext
  · rw [Bool.eq_iff_iff, scanFlows_sso, scanFlows_sso]
    simp [List.mem_filter]
  · rw [Bool.eq_iff_iff, scanFlows_password, scanFlows_password]
    simp [List.mem_filter]

theorem getLoginCallback_ok (flows : LoginFlows) (s : State) (h : flows.flows ≠ []) :
    getLoginCallback flows none s =
      post (.versionOk (scanFlows flows.flows).2 (scanFlows flows.flows).1) s := by
  simp [getLoginCallback, h]

theorem getLoginCallback_empty (err : Option ClientError) (s : State) :
    getLoginCallback ⟨[]⟩ err s =
      post (.versionOk false false) (post (.versionOk true false) s) := by
  simp [getLoginCallback, scanFlows]

theorem wellKnownCallback_malformed (env : Env) (res : WellKnown) (e : ClientError)
    (s : State) (h404 : e.status_code ≠ 404) (hp : e.parse_error ≠ "") :
    wellKnownCallback env res (some e) s =
      post (.versionError "Autodiscovery failed. Received malformed response.") s := by
  simp [wellKnownCallback, h404, hp, tr]

/-! ## The claims -/

/-- C1: with an empty flow list, whether or not the response carries an error,
the `get_login` callback posts `versionOk(true, false)` and then, for lack of a
`return`, `versionOk(false, false)`; once the queue has run the page holds
`passwordSupported_ = false` and `ssoSupported_ = false`, still marked valid. -/
theorem getLogin_fallback_overwritten (err : Option ClientError) (s : State) :
    (getLoginCallback ⟨[]⟩ err s).queue =
      s.queue ++ [Slot.versionOk true false, Slot.versionOk false false] ∧
    (drain (getLoginCallback ⟨[]⟩ err s)).passwordSupported_ = false ∧
    (drain (getLoginCallback ⟨[]⟩ err s)).ssoSupported_ = false ∧
    (drain (getLoginCallback ⟨[]⟩ err s)).homeserverValid_ = true := by
  rw [getLoginCallback_empty]
  refine ⟨by simp [post], ?_, ?_, ?_⟩ <;>
    simp [drain_post, runSlot, versionOk, emit]

/-- C10: an error-free login-flow response with a non-empty flow list posts one
`versionOk`, after which the server is validated, `ssoSupported_` holds iff some
entry has the sso type, `passwordSupported_` holds iff some entry has the
password type, entries of other types change nothing, and no error is set. -/
theorem getLogin_scans_flows (flows : LoginFlows) (s : State) (h : flows.flows ≠ []) :
    (getLoginCallback flows none s).queue =
      s.queue ++ [Slot.versionOk (scanFlows flows.flows).2 (scanFlows flows.flows).1] ∧
    (drain (getLoginCallback flows none s)).homeserverValid_ = true ∧
    (drain (getLoginCallback flows none s)).lookingUpHs_ = false ∧
    ((drain (getLoginCallback flows none s)).ssoSupported_ = true ↔
      auth_types_sso ∈ flows.flows) ∧
    ((drain (getLoginCallback flows none s)).passwordSupported_ = true ↔
      auth_types_password ∈ flows.flows) ∧
    scanFlows (flows.flows.filter (fun t => t = auth_types_sso ∨ t = auth_types_password)) =
      scanFlows flows.flows ∧
    (drain (getLoginCallback flows none s)).error_ = (drain s).error_ := by
  rw [getLoginCallback_ok flows s h]
  refine ⟨by simp [post], ?_, ?_, ?_, ?_, scanFlows_filter _, ?_⟩
  · simp [drain_post, runSlot, versionOk, emit]
  · simp [drain_post, runSlot, versionOk, emit]
  · rw [← scanFlows_sso]; simp [drain_post, runSlot, versionOk, emit]
  · rw [← scanFlows_password]; simp [drain_post, runSlot, versionOk, emit]
  · simp [drain_post, runSlot, versionOk, emit]

/-- C10 at the flow list holding only the password type: validated, with
`passwordSupported_ = true` and `ssoSupported_ = false`. -/
theorem getLogin_scans_flows_witness :
    (LoginFlows.mk ["m.login.password"]).flows ≠ [] ∧
    (drain (getLoginCallback ⟨["m.login.password"]⟩ none idle)).homeserverValid_ = true ∧
    (drain (getLoginCallback ⟨["m.login.password"]⟩ none idle)).passwordSupported_ = true ∧
    (drain (getLoginCallback ⟨["m.login.password"]⟩ none idle)).ssoSupported_ = false :=
  have h := getLogin_scans_flows ⟨["m.login.password"]⟩ idle (by decide)
  ⟨by decide, h.2.1, h.2.2.2.2.1.mpr (by decide),
    Bool.eq_false_iff.mpr (fun hs => absurd (h.2.2.2.1.mp hs) (by decide))⟩

/-- C6: a well-known error that is not a 404 and carries a parse error posts
`versionError` with the malformed-response message and does nothing else: no
call leaves the page (no `versions`, no `get_login`), neither in the callback
nor in the slot, and the slot sets that message as the error. -/
theorem wellKnown_malformed_stops (env : Env) (res : WellKnown) (e : ClientError)
    (s : State) (h404 : e.status_code ≠ 404) (hp : e.parse_error ≠ "") :
    wellKnownCallback env res (some e) s =
      post (.versionError "Autodiscovery failed. Received malformed response.") s ∧
    (wellKnownCallback env res (some e) s).calls = s.calls ∧
    (drain (wellKnownCallback env res (some e) s)).calls = (drain s).calls ∧
    (drain (wellKnownCallback env res (some e) s)).error_ =
      "Autodiscovery failed. Received malformed response." ∧
    (drain (wellKnownCallback env res (some e) s)).homeserverValid_ = false ∧
    (drain (wellKnownCallback env res (some e) s)).signals =
      (drain s).signals ++ [Signal.loggingInChanged, Signal.errorOccurred,
        Signal.lookingUpHsChanged, Signal.versionLookedUp] := by
  rw [wellKnownCallback_malformed env res e s h404 hp]
  refine ⟨rfl, by simp [post], ?_, ?_, ?_, ?_⟩ <;>
    simp [drain_post, runSlot, versionError, showError, emit]

/-- C6 at a status 500 response whose body failed to parse, arriving while
`@alice:example.org` is being looked up. -/
theorem wellKnown_malformed_stops_witness :
    (ClientError.mk 500 "unexpected token" "").status_code ≠ 404 ∧
    (ClientError.mk 500 "unexpected token" "").parse_error ≠ "" ∧
    (wellKnownCallback sampleEnv ⟨""⟩ (some ⟨500, "unexpected token", ""⟩)
        (setMxid sampleEnv "@alice:example.org" idle)).calls =
      (setMxid sampleEnv "@alice:example.org" idle).calls :=
  ⟨by decide, by decide,
    (wellKnown_malformed_stops sampleEnv ⟨""⟩ ⟨500, "unexpected token", ""⟩
      (setMxid sampleEnv "@alice:example.org" idle) (by decide) (by decide)).2.1⟩

theorem wellKnownCallback_success_homeserver (env : Env) (res : WellKnown) (s : State) :
    (wellKnownCallback env res none s).homeserver_ = s.homeserver_ ∧
    (wellKnownCallback env res none s).server = res.base_url := by
  cases hp : env.parse s.mxid_ <;>
    simp [wellKnownCallback, checkHomeserverVersion, clearErrors, emit, call, set_server, hp]

/-- C9: for `@alice:example.org` and a successful well-known response carrying
`https://hs.example.org`, the callback redirects the transport client to the
discovered URL, emits `homeserverChanged` and issues `versions`, while
`homeserver_` still reads `example.org`. -/
theorem wellKnown_success_leaves_homeserver_field :
    (wellKnownCallback sampleEnv ⟨"https://hs.example.org"⟩ none
      (setMxid sampleEnv "@alice:example.org" idle)).server = "https://hs.example.org" ∧
    (wellKnownCallback sampleEnv ⟨"https://hs.example.org"⟩ none
      (setMxid sampleEnv "@alice:example.org" idle)).homeserver_ = "example.org" ∧
    (wellKnownCallback sampleEnv ⟨"https://hs.example.org"⟩ none
      (setMxid sampleEnv "@alice:example.org" idle)).signals =
      (setMxid sampleEnv "@alice:example.org" idle).signals ++
        [Signal.homeserverChanged, Signal.errorOccurred, Signal.mxidErrorChanged] ∧
    (wellKnownCallback sampleEnv ⟨"https://hs.example.org"⟩ none
      (setMxid sampleEnv "@alice:example.org" idle)).calls =
      (setMxid sampleEnv "@alice:example.org" idle).calls ++
        [Call.set_server "https://hs.example.org", Call.versions] := by
  decide

/-- C7: the `ssoFailed` handler and the error branch of the token-login
callback each emit `errorOccurred` twice (once in `showError`, once more
directly), whereas a rejected password login, the empty-password check and the
`versionError` slot each emit it once. -/
theorem sso_failures_emit_twice (res : Login) (e : ClientError) (msg : String) (s : State) :
    (ssoFailed s).signals =
      s.signals ++ [Signal.loggingInChanged, Signal.errorOccurred, Signal.errorOccurred] ∧
    errorCount (ssoFailed s).signals = errorCount s.signals + 2 ∧
    (tokenLoginCallback res (some e) s).signals =
      s.signals ++ [Signal.loggingInChanged, Signal.errorOccurred, Signal.errorOccurred] ∧
    errorCount (tokenLoginCallback res (some e) s).signals = errorCount s.signals + 2 ∧
    errorCount (passwordLoginCallback res (some e) s).signals = errorCount s.signals + 1 ∧
    errorCount (showError msg s).signals = errorCount s.signals + 1 ∧
    errorCount (versionError msg s).signals = errorCount s.signals + 1 := by
  simp [ssoFailed, tokenLoginCallback, passwordLoginCallback, versionError, showError, emit,
    call, errorCount]

theorem drain_loginOk_loggingIn (res : Login) (s : State) :
    (drain (post (.loginOk res) s)).loggingIn_ = false := by
  simp [drain_post, runSlot, loginOkSlot, emit, call]

/-- C8: for an identifier that parses, `onLoginButtonClicked` with a non-empty
password or with method SSO returns with `loggingIn_ = true`; at every later
state the delivery of a token keeps the flag, and every terminal outcome (a
rejected password login, a successful login once `loginOk` has run, the SSO
failure signal, a rejected token login) ends with `loggingIn_ = false`. -/
theorem loggingIn_set_then_cleared (env : Env) (loginMethod : LoginMethod)
    (userid password deviceName : String) (u : User) (s : State)
    (hparse : env.parse userid = some u)
    (hflow : loginMethod = .SSO ∨ password ≠ "") :
    (onLoginButtonClicked env loginMethod userid password deviceName s).loggingIn_ = true ∧
    ∀ (t : State) (res : Login) (e : ClientError) (token : String),
      (ssoSuccess env deviceName token t).loggingIn_ = t.loggingIn_ ∧
      (passwordLoginCallback res (some e) t).loggingIn_ = false ∧
      (drain (passwordLoginCallback res none t)).loggingIn_ = false ∧
      (ssoFailed t).loggingIn_ = false ∧
      (tokenLoginCallback res (some e) t).loggingIn_ = false ∧
      (drain (tokenLoginCallback res none t)).loggingIn_ = false := by
  constructor
  · cases loginMethod with
    | SSO => simp [onLoginButtonClicked, hparse, emit, call, clearErrors]
    | Password =>
      have hp : password ≠ "" := by
        rcases hflow with h | h
        · cases h
        · exact h
      simp [onLoginButtonClicked, hparse, hp, emit, call, clearErrors]
  · intro t res e token
    refine ⟨by simp [ssoSuccess, call], by simp [passwordLoginCallback, showError, emit],
      ?_, by simp [ssoFailed, showError, emit, call],
      by simp [tokenLoginCallback, showError, emit], ?_⟩
    · simp only [passwordLoginCallback]
      exact drain_loginOk_loggingIn res _
    · simp only [tokenLoginCallback]
      exact drain_loginOk_loggingIn res _

/-- C8 at a password login of `@alice:example.org` from the page at rest. -/
theorem loggingIn_set_then_cleared_witness :
    sampleEnv.parse "@alice:example.org" = some ⟨"alice", "example.org"⟩ ∧
    (LoginMethod.Password = LoginMethod.SSO ∨ "hunter2" ≠ "") ∧
    (onLoginButtonClicked sampleEnv .Password "@alice:example.org" "hunter2" "" idle).loggingIn_ =
      true ∧
    (drain (passwordLoginCallback ⟨"@alice:example.org", none⟩ none
      (onLoginButtonClicked sampleEnv .Password "@alice:example.org" "hunter2" ""
        idle))).loggingIn_ = false :=
  have h := loggingIn_set_then_cleared sampleEnv .Password "@alice:example.org" "hunter2" ""
    ⟨"alice", "example.org"⟩ idle (by decide) (Or.inr (by decide))
  ⟨by decide, Or.inr (by decide), h.1,
    (h.2 (onLoginButtonClicked sampleEnv .Password "@alice:example.org" "hunter2" "" idle)
      ⟨"@alice:example.org", none⟩ ⟨0, "", ""⟩ "").2.2.1⟩

/-- C2, refuted: `@alice:example.org` is looked up, then the caller enters the
homeserver `matrix.example.com` while the well-known lookup is in flight; the
lookup then fails with status 500. Handling that response sets `error_`, ends
the looking-up indicator and emits `errorOccurred`. -/
theorem stale_wellKnown_failure_mutates :
    (supersede sampleEnv (.homeserver "matrix.example.com")
      (onMatrixIdEntered sampleEnv { idle with mxid_ := "@alice:example.org" })).error_ = "" ∧
    (supersede sampleEnv (.homeserver "matrix.example.com")
      (onMatrixIdEntered sampleEnv { idle with mxid_ := "@alice:example.org" })).lookingUpHs_ =
      true ∧
    (supersede sampleEnv (.homeserver "matrix.example.com")
      (onMatrixIdEntered sampleEnv { idle with mxid_ := "@alice:example.org" })).server =
      "matrix.example.com" ∧
    (drain (wellKnownCallback sampleEnv ⟨""⟩ (some ⟨500, "", ""⟩)
      (supersede sampleEnv (.homeserver "matrix.example.com")
        (onMatrixIdEntered sampleEnv { idle with mxid_ := "@alice:example.org" })))).error_ =
      "Autodiscovery failed. Unknown error when requesting .well-known." ∧
    (drain (wellKnownCallback sampleEnv ⟨""⟩ (some ⟨500, "", ""⟩)
      (supersede sampleEnv (.homeserver "matrix.example.com")
        (onMatrixIdEntered sampleEnv
          { idle with mxid_ := "@alice:example.org" })))).lookingUpHs_ = false ∧
    (drain (wellKnownCallback sampleEnv ⟨""⟩ (some ⟨500, "", ""⟩)
      (supersede sampleEnv (.homeserver "matrix.example.com")
        (onMatrixIdEntered sampleEnv { idle with mxid_ := "@alice:example.org" })))).signals =
      (supersede sampleEnv (.homeserver "matrix.example.com")
        (onMatrixIdEntered sampleEnv { idle with mxid_ := "@alice:example.org" })).signals ++
        [Signal.loggingInChanged, Signal.errorOccurred, Signal.lookingUpHsChanged,
          Signal.versionLookedUp] := by
  decide

/-- C2, amended: the page keeps no generation counter, and a response is
handled on the state found at its arrival whether or not the caller has changed
the identifier or the homeserver since the request. After any such change a
failed version request still ends, through `versionError`, with an error set,
validation and the looking-up indicator cleared and `errorOccurred` emitted; a
login-flow response still validates the server; a successful well-known
response still redirects the transport client; a rejected password or token
login still sets `error_`, clears `loggingIn_` and emits `errorOccurred`. -/
theorem stale_responses_are_applied (env : Env) (input : Input) (s : State)
    (wk : WellKnown) (flows : LoginFlows) (res : Login) (e : ClientError) :
    ((drain (versionsCallback (some e) (supersede env input s))).error_ ∈
        ["The required endpoints were not found. Possibly not a Matrix server.",
         "Received malformed response. Make sure the homeserver domain is valid.",
         "An unknown error occured. Make sure the homeserver domain is valid."] ∧
      (drain (versionsCallback (some e) (supersede env input s))).homeserverValid_ = false ∧
      (drain (versionsCallback (some e) (supersede env input s))).lookingUpHs_ = false ∧
      (drain (versionsCallback (some e) (supersede env input s))).signals =
        (drain (supersede env input s)).signals ++
          [Signal.loggingInChanged, Signal.errorOccurred, Signal.lookingUpHsChanged,
            Signal.versionLookedUp]) ∧
    ((drain (getLoginCallback flows none (supersede env input s))).homeserverValid_ = true ∧
      (drain (getLoginCallback flows none (supersede env input s))).lookingUpHs_ = false) ∧
    (wellKnownCallback env wk none (supersede env input s)).server = wk.base_url ∧
    ((passwordLoginCallback res (some e) (supersede env input s)).error_ =
        (if e.matrix_error = "" then e.parse_error else e.matrix_error) ∧
      (passwordLoginCallback res (some e) (supersede env input s)).loggingIn_ = false ∧
      (passwordLoginCallback res (some e) (supersede env input s)).signals =
        (supersede env input s).signals ++ [Signal.loggingInChanged, Signal.errorOccurred]) ∧
    ((tokenLoginCallback res (some e) (supersede env input s)).error_ = e.matrix_error ∧
      (tokenLoginCallback res (some e) (supersede env input s)).loggingIn_ = false ∧
      (tokenLoginCallback res (some e) (supersede env input s)).signals =
        (supersede env input s).signals ++
          [Signal.loggingInChanged, Signal.errorOccurred, Signal.errorOccurred]) := by
  generalize supersede env input s = t
  refine ⟨?_, ?_, (wellKnownCallback_success_homeserver env wk t).2, ?_, ?_⟩
  · simp only [versionsCallback]
    split_ifs <;> simp [drain_post, runSlot, versionError, showError, emit, tr]
  · simp only [getLoginCallback]
    split_ifs <;> simp [drain_post, runSlot, versionOk, emit]
  · simp [passwordLoginCallback, showError, emit]
  · simp [tokenLoginCallback, showError, emit]

/-- C3, refuted: `@alice:example.org` is entered and looked up, the text is
then changed to `alice`, and the well-known lookup answers 404. The identifier
re-validation in `checkHomeserverVersion` fails: only `mxidError_` is set,
nothing is posted, `error_` stays empty and `lookingUpHs_` is still true. -/
theorem revalidation_failure_keeps_lookingUp :
    (setMxid sampleEnv "alice" (setMxid sampleEnv "@alice:example.org" idle)).lookingUpHs_ =
      true ∧
    (drain (wellKnownCallback sampleEnv ⟨""⟩ (some ⟨404, "", ""⟩)
      (setMxid sampleEnv "alice"
        (setMxid sampleEnv "@alice:example.org" idle)))).lookingUpHs_ = true ∧
    (drain (wellKnownCallback sampleEnv ⟨""⟩ (some ⟨404, "", ""⟩)
      (setMxid sampleEnv "alice"
        (setMxid sampleEnv "@alice:example.org" idle)))).error_ = "" ∧
    (drain (wellKnownCallback sampleEnv ⟨""⟩ (some ⟨404, "", ""⟩)
      (setMxid sampleEnv "alice"
        (setMxid sampleEnv "@alice:example.org" idle)))).mxidError_ = invalidMxid ∧
    (wellKnownCallback sampleEnv ⟨""⟩ (some ⟨404, "", ""⟩)
      (setMxid sampleEnv "alice"
        (setMxid sampleEnv "@alice:example.org" idle))).queue = [] := by
  decide

/-- C3, amended: every failure reported through `versionError` (a version
request answered 404, with a parse error or with any other error; a well-known
lookup failing with anything but a 404, malformed or unknown) ends, once the
posted `versionError` has run, with `homeserverValid_ = false`,
`lookingUpHs_ = false`, the failure message in `error_` and one
`errorOccurred`. The identifier re-validation failure in
`checkHomeserverVersion` instead sets `mxidError_`, emits `mxidErrorChanged`
after the signals of `clearErrors`, issues no request and leaves
`homeserverValid_` untouched. -/
theorem probe_failures_clear_validation (env : Env) (wk : WellKnown) (e : ClientError)
    (s : State) (e404 : ClientError) (h404 : e404.status_code ≠ 404)
    (bad : State) (hbad : env.parse bad.mxid_ = none) :
    ((drain (versionsCallback (some e) s)).homeserverValid_ = false ∧
      (drain (versionsCallback (some e) s)).lookingUpHs_ = false ∧
      (drain (versionsCallback (some e) s)).error_ ∈
        ["The required endpoints were not found. Possibly not a Matrix server.",
         "Received malformed response. Make sure the homeserver domain is valid.",
         "An unknown error occured. Make sure the homeserver domain is valid."] ∧
      (drain (versionsCallback (some e) s)).signals =
        (drain s).signals ++ [Signal.loggingInChanged, Signal.errorOccurred,
          Signal.lookingUpHsChanged, Signal.versionLookedUp]) ∧
    ((drain (wellKnownCallback env wk (some e404) s)).homeserverValid_ = false ∧
      (drain (wellKnownCallback env wk (some e404) s)).lookingUpHs_ = false ∧
      (drain (wellKnownCallback env wk (some e404) s)).error_ ∈
        ["Autodiscovery failed. Received malformed response.",
         "Autodiscovery failed. Unknown error when requesting .well-known."] ∧
      (drain (wellKnownCallback env wk (some e404) s)).signals =
        (drain s).signals ++ [Signal.loggingInChanged, Signal.errorOccurred,
          Signal.lookingUpHsChanged, Signal.versionLookedUp]) ∧
    ((checkHomeserverVersion env bad).homeserverValid_ = bad.homeserverValid_ ∧
      (checkHomeserverVersion env bad).mxidError_ = invalidMxid ∧
      (checkHomeserverVersion env bad).calls = bad.calls ∧
      (checkHomeserverVersion env bad).queue = bad.queue ∧
      (checkHomeserverVersion env bad).signals =
        bad.signals ++ env.clearErrorsSignals ++ [Signal.mxidErrorChanged]) := by
  refine ⟨?_, ?_, ?_⟩
  · simp only [versionsCallback]
    split_ifs <;> simp [drain_post, runSlot, versionError, showError, emit, tr]
  · simp only [wellKnownCallback, h404, if_false]
    split_ifs <;> simp [drain_post, runSlot, versionError, showError, emit, tr]
  · simp [checkHomeserverVersion, clearErrors, hbad, emit]

/-- C3, amended, at a version request answered 404, a well-known lookup
failing with status 500, and the identifier text `alice`. -/
theorem probe_failures_clear_validation_witness :
    (ClientError.mk 500 "" "").status_code ≠ 404 ∧
    sampleEnv.parse (State.mxid_ { idle with mxid_ := "alice" }) = none ∧
    (drain (versionsCallback (some ⟨404, "", ""⟩)
      (setMxid sampleEnv "@alice:example.org" idle))).homeserverValid_ = false ∧
    (drain (wellKnownCallback sampleEnv ⟨""⟩ (some ⟨500, "", ""⟩)
      (setMxid sampleEnv "@alice:example.org" idle))).lookingUpHs_ = false ∧
    (checkHomeserverVersion sampleEnv { idle with mxid_ := "alice" }).calls = [] :=
  have h := probe_failures_clear_validation sampleEnv ⟨""⟩ ⟨404, "", ""⟩
    (setMxid sampleEnv "@alice:example.org" idle) ⟨500, "", ""⟩ (by decide)
    { idle with mxid_ := "alice" } (by decide)
  ⟨by decide, by decide, h.1.1, h.2.1.2.1, h.2.2.2.2.1⟩

end LoginPage
